import Mathlib

/-!
Shallow embedding of the post-lifecycle logic of the repository
being24/glowing-enigma (files mattermost_driver.py, google_calender.py,
main.py) and proofs about it.

Conventions of the embedding:
* Local wall-clock instants (the `datetime` values of the Python code, all
  carrying the fixed-offset zone Asia/Tokyo, which has no DST) are modelled
  as `Int` milliseconds counted from an epoch fixed at some Monday 00:00
  local time.  With that epoch, `t / msPerDay` is the day index,
  `(t / msPerDay) % 7` is Python's `datetime.weekday()` (Monday = 0), and
  `datetime.replace(hour=0, minute=0, second=0, microsecond=0)` is flooring
  to a multiple of `msPerDay`.
* Python's `sorted(post_list, key=lambda x: x.created_at)` is a stable sort
  by `created_at`; it is embedded as the (also stable) insertion sort on the
  same key, which the kernel can evaluate.
* Python's substring test `"this week" in message` is embedded as an
  executable substring search over the character lists of the strings.
* Network calls are factored out: the channel response that
  `Driver.posts.get_posts_for_channel` would return is passed in as an
  explicit `ChannelResponse` value, and only the response handling of
  `get_cannel_posts` (mattermost_driver.py lines 74-95) is embedded.
* Attribute access on a Python object that may lack the attribute is
  fallible and is embedded as an `Except`-valued accessor.
-/

/-! ### Time model -/

/-- Milliseconds of one day of local wall-clock time. -/
def msPerDay : Int := 86400000

/-- Milliseconds of one week (7 days). -/
def msPerWeek : Int := 604800000

/-- `t.replace(hour=0, minute=0, second=0, microsecond=0)`: floor `t` to
midnight of its local day.  For the positive divisor `msPerDay`, `Int`
division `/` (`Int.ediv`) is floor division, matching Python. -/
def startOfDay (t : Int) : Int := msPerDay * (t / msPerDay)

/-- Python's `datetime.weekday()`: Monday = 0 ... Sunday = 6.  The epoch of
the embedding is a Monday 00:00 local. -/
def weekday (t : Int) : Int := (t / msPerDay) % 7

/-- A fixed-offset time zone (`zoneinfo.ZoneInfo`), reduced to the shift that
takes a Unix-epoch millisecond timestamp to the local epoch of the
embedding. -/
structure ZoneInfo where
  toLocalShift : Int
deriving DecidableEq, Repr

/-- `datetime.fromtimestamp(unixMs / 1000, tz)` expressed in local epoch
milliseconds. -/
def fromtimestampMs (tz : ZoneInfo) (unixMs : Int) : Int :=
  unixMs + tz.toLocalShift

/-! ### Python substring containment (`pat in s`) -/

/-- Does `pat` occur as a contiguous run somewhere in `s`?  Recursion over
the haystack, testing a prefix match at every position. -/
def subMem (pat : List Char) : List Char → Bool
  | [] => pat.isEmpty
  | c :: rest => pat.isPrefixOf (c :: rest) || subMem pat rest

/-- Python's `pat in s` on strings: substring containment. -/
def strContainsSub (s pat : String) : Bool := subMem pat.data s.data

/-! ### Mattermost data model (mattermost_driver.py lines 13-19) -/

/-- The dataclass `MattermostPostData`. -/
structure MattermostPostData where
  post_id : String
  created_at : Int
  user_id : String
  channel_id : String
  message : String
deriving DecidableEq, Repr

/-- One raw post of the JSON channel response: the fields of
`channel_data["posts"].values()` that `get_cannel_posts` reads. -/
structure RawPost where
  id : String
  create_at : Int
  user_id : String
  message : String
deriving DecidableEq, Repr

/-- The response of `Driver.posts.get_posts_for_channel`: either an error
payload (it then has a `status_code` key) or a collection of posts. -/
inductive ChannelResponse where
  | error (status_code : Int)
  | ok (posts : List RawPost)
deriving DecidableEq, Repr

/-- Sort key relation of `sorted(post_list, key=lambda x: x.created_at)`. -/
def postLe (p q : MattermostPostData) : Prop := p.created_at ≤ q.created_at

instance : DecidableRel postLe :=
  fun p q => inferInstanceAs (Decidable (p.created_at ≤ q.created_at))

instance : IsTotal MattermostPostData postLe :=
  ⟨fun p q => Int.le_total p.created_at q.created_at⟩

instance : IsTrans MattermostPostData postLe :=
  ⟨fun _ _ _ hab hbc => le_trans hab hbc⟩

/-- `Mattermost.get_cannel_posts` (mattermost_driver.py lines 74-95): if the
response carries a `status_code` key, return the empty list; otherwise
convert every raw post to a `MattermostPostData` (timestamps converted from
Unix milliseconds to local time) and sort ascending by `created_at`. -/
def get_cannel_posts (tz : ZoneInfo) (resp : ChannelResponse)
    (channel_id : String) : List MattermostPostData :=
  match resp with
  | ChannelResponse.error _ => []
  | ChannelResponse.ok posts =>
      let post_list := posts.map (fun p =>
        { post_id := p.id
          created_at := fromtimestampMs tz p.create_at
          user_id := p.user_id
          channel_id := channel_id
          message := p.message : MattermostPostData })
      List.insertionSort postLe post_list

/-- `Mattermost.return_user_id_list` (lines 97-108): keep the posts whose
author is `user_id`. -/
def return_user_id_list (post_list : List MattermostPostData)
    (user_id : String) : List MattermostPostData :=
  post_list.filter (fun post => post.user_id == user_id)

/-- `Mattermost.return_before_post` (lines 110-121): keep the posts created
strictly before `before_date`. -/
def return_before_post (post_list : List MattermostPostData)
    (before_date : Int) : List MattermostPostData :=
  post_list.filter (fun post => decide (post.created_at < before_date))

/-- `Mattermost.return_shift_datetime` (lines 123-134): floor `now` to
midnight, then shift by `before_date` days. -/
def return_shift_datetime (now : Int) (before_date : Int) : Int :=
  startOfDay now + before_date * msPerDay

/-- The pure part of `Mattermost.return_everyday_posts` (lines 149-153),
applied to an already fetched post list: identity filter, then recency
cutoff at one day before midnight of `now`, then keep only posts whose body
does not contain `"this week"`. -/
def filter_everyday (now : Int) (bot_id : String)
    (post_list : List MattermostPostData) : List MattermostPostData :=
  let tg_list := return_user_id_list post_list bot_id
  let del_list_one := return_before_post tg_list (return_shift_datetime now (-1))
  del_list_one.filter (fun post => ! strContainsSub post.message "this week")

/-- `Mattermost.return_everyday_posts` (lines 136-155). -/
def return_everyday_posts (tz : ZoneInfo) (resp : ChannelResponse)
    (now : Int) (channel_id bot_id : String) : List MattermostPostData :=
  filter_everyday now bot_id (get_cannel_posts tz resp channel_id)

/-- The pure part of `Mattermost.return_week_day_posts` (lines 170-173):
identity filter, then recency cutoff at six days before midnight of `now`,
then keep only posts whose body contains `"this week"`. -/
def filter_week_day (now : Int) (bot_id : String)
    (post_list : List MattermostPostData) : List MattermostPostData :=
  let tg_list := return_user_id_list post_list bot_id
  let del_list_seven := return_before_post tg_list (return_shift_datetime now (-6))
  del_list_seven.filter (fun post => strContainsSub post.message "this week")

/-- `Mattermost.return_week_day_posts` (lines 157-175). -/
def return_week_day_posts (tz : ZoneInfo) (resp : ChannelResponse)
    (now : Int) (channel_id bot_id : String) : List MattermostPostData :=
  filter_week_day now bot_id (get_cannel_posts tz resp channel_id)

/-! ### Calendar window selection (google_calender.py lines 95-120) -/

/-- The start of the window of `GoogleCalendar.get_next_week_events`:
`next_monday = now + timedelta(days=(7 - now.weekday()))` followed by
`replace(hour=0, minute=0, second=0, microsecond=0)`. -/
def next_monday (now : Int) : Int :=
  startOfDay (now + (7 - weekday now) * msPerDay)

/-- The end of the window: `after_next_monday = next_monday + timedelta(days=7)`. -/
def after_next_monday (now : Int) : Int := next_monday now + 7 * msPerDay

/-- The `(timeMin, timeMax)` pair that `get_next_week_events` passes to the
calendar query. -/
def get_next_week_window (now : Int) : Int × Int :=
  (next_monday now, after_next_monday now)

/-! ### Digest formatter (main.py lines 13-39, google_calender.py lines 13-20) -/

/-- The fields of a local `datetime` that `create_attachments` formats. -/
structure DateTime where
  month : Nat
  day : Nat
  hour : Nat
  minute : Nat
deriving DecidableEq, Repr

/-- Zero-padding to two digits, as the strftime directives
`%m %d %H %M` do. -/
def pad2 (n : Nat) : String := if n < 10 then "0" ++ toString n else toString n

/-- Interpreter for the strftime format strings used by `create_attachments`
(directives `%m`, `%d`, `%H`, `%M`; all other characters are literal). -/
def strftimeGo (d : DateTime) : List Char → String
  | [] => ""
  | '%' :: 'm' :: rest => pad2 d.month ++ strftimeGo d rest
  | '%' :: 'd' :: rest => pad2 d.day ++ strftimeGo d rest
  | '%' :: 'H' :: rest => pad2 d.hour ++ strftimeGo d rest
  | '%' :: 'M' :: rest => pad2 d.minute ++ strftimeGo d rest
  | c :: rest => String.singleton c ++ strftimeGo d rest

/-- `d.strftime(fmt)`. -/
def strftime (d : DateTime) (fmt : String) : String := strftimeGo d fmt.data

/-- The dataclass `GoogleCalendarData` (google_calender.py lines 13-20).
Its fields are exactly `start`, `end`, `summary`, `organizer`,
`schedule_type`, `timezone` — there is no link field. -/
structure GoogleCalendarData where
  start : DateTime
  «end» : DateTime
  summary : String
  organizer : String
  schedule_type : String
  timezone : ZoneInfo
deriving DecidableEq, Repr

/-- The attribute access `event.html_link` performed by `create_attachments`
(main.py line 35).  The dataclass `GoogleCalendarData` declares no
`html_link` field and `get_calendar` never sets one, so in Python this
access raises `AttributeError`; it is embedded as a failing accessor. -/
def GoogleCalendarData.html_link (_event : GoogleCalendarData) :
    Except String String :=
  Except.error "AttributeError: html_link"

/-- The label `msg` computed by `create_attachments` (main.py lines 24-29). -/
def create_label (event : GoogleCalendarData) : String :=
  if event.schedule_type == "all_day" then
    strftime event.start "%m/%d" ++ " all_day"
  else
    strftime event.start "%m/%d" ++ " from " ++ strftime event.start "%H:%M"
      ++ " to " ++ strftime event.«end» "%H:%M"

/-- One Mattermost message attachment as built by `create_attachments`. -/
structure Attachment where
  color : String
  text : String
  title : String
  title_link : String
deriving DecidableEq, Repr

/-- `create_attachments` (main.py lines 13-39): for each event build the
label and the attachment record; the access `event.html_link` is fallible,
so the whole loop is `Except`-valued and stops at the first failure exactly
as the Python loop raises there. -/
def create_attachments : List GoogleCalendarData → Except String (List Attachment)
  | [] => Except.ok []
  | event :: rest => do
      let msg := create_label event
      let link ← event.html_link
      let tail ← create_attachments rest
      Except.ok ({ color := "#87CEEB", text := msg, title := event.summary,
                   title_link := link } :: tail)

/-! ### Concrete fixtures used by the witnesses -/

/-- A zone whose local epoch coincides with the Unix one. -/
def tz0 : ZoneInfo := { toLocalShift := 0 }

/-- A bot post seven days old, daily class (no `"this week"` in the body). -/
def rawA : RawPost :=
  { id := "a1", create_at := -604800000, user_id := "bot",
    message := "events for today" }

/-- A bot post about seven days old, weekly class (`"this week"` in the body). -/
def rawB : RawPost :=
  { id := "b2", create_at := -604700000, user_id := "bot",
    message := "events for this week" }

/-- A successful channel response with the two posts above. -/
def resp0 : ChannelResponse := ChannelResponse.ok [rawA, rawB]

/-- A `now` of day index 3 (a Thursday 00:00 of the embedding epoch). -/
def now0 : Int := 259200000

/-- `rawA` converted by `get_cannel_posts` under `tz0`. -/
def postA : MattermostPostData :=
  { post_id := "a1", created_at := -604800000, user_id := "bot",
    channel_id := "town", message := "events for today" }

/-- `rawB` converted by `get_cannel_posts` under `tz0`. -/
def postB : MattermostPostData :=
  { post_id := "b2", created_at := -604700000, user_id := "bot",
    channel_id := "town", message := "events for this week" }

/-- A concrete all-day calendar event. -/
def eventA : GoogleCalendarData :=
  { start := { month := 1, day := 2, hour := 0, minute := 0 },
    «end» := { month := 1, day := 3, hour := 0, minute := 0 },
    summary := "X", organizer := "o", schedule_type := "all_day",
    timezone := tz0 }

/-! ### Helper lemmas -/

/-- Membership in the daily filter output, unfolded. -/
lemma mem_filter_everyday (now : Int) (bot_id : String)
    (l : List MattermostPostData) (p : MattermostPostData) :
    p ∈ filter_everyday now bot_id l ↔
      p ∈ l ∧ p.user_id = bot_id ∧
        p.created_at < return_shift_datetime now (-1) ∧
        strContainsSub p.message "this week" = false := by
  simp [filter_everyday, return_user_id_list, return_before_post,
    List.mem_filter, and_assoc]
  tauto

/-- Membership in the weekly filter output, unfolded. -/
lemma mem_filter_week_day (now : Int) (bot_id : String)
    (l : List MattermostPostData) (p : MattermostPostData) :
    p ∈ filter_week_day now bot_id l ↔
      p ∈ l ∧ p.user_id = bot_id ∧
        p.created_at < return_shift_datetime now (-6) ∧
        strContainsSub p.message "this week" = true := by
  simp [filter_week_day, return_user_id_list, return_before_post,
    List.mem_filter, and_assoc]
  tauto

/-- The shift by `-1` day is the claim's daily cutoff. -/
lemma return_shift_datetime_neg_one (now : Int) :
    return_shift_datetime now (-1) = startOfDay now - 1 * msPerDay := by
  unfold return_shift_datetime
  ring

/-- The shift by `-6` days is the claim's weekly cutoff. -/
lemma return_shift_datetime_neg_six (now : Int) :
    return_shift_datetime now (-6) = startOfDay now - 6 * msPerDay := by
  unfold return_shift_datetime
  ring

/-- The list produced by `get_cannel_posts` is sorted (nondecreasing) by
`created_at`. -/
lemma pairwise_get_cannel_posts (tz : ZoneInfo) (resp : ChannelResponse)
    (channel_id : String) :
    List.Pairwise (fun p q : MattermostPostData => p.created_at ≤ q.created_at)
      (get_cannel_posts tz resp channel_id) := by
  cases resp with
  | error code => simp [get_cannel_posts]
  | ok posts => exact List.sorted_insertionSort postLe _

/-- The daily filter is a single `List.filter`. -/
lemma filter_everyday_eq_filter (now : Int) (bot_id : String)
    (l : List MattermostPostData) :
    filter_everyday now bot_id l =
      l.filter (fun p => (! strContainsSub p.message "this week") &&
        (decide (p.created_at < return_shift_datetime now (-1)) &&
          (p.user_id == bot_id))) := by
  simp only [filter_everyday, return_user_id_list, return_before_post,
    List.filter_filter]

/-- The weekly filter is a single `List.filter`. -/
lemma filter_week_day_eq_filter (now : Int) (bot_id : String)
    (l : List MattermostPostData) :
    filter_week_day now bot_id l =
      l.filter (fun p => strContainsSub p.message "this week" &&
        (decide (p.created_at < return_shift_datetime now (-6)) &&
          (p.user_id == bot_id))) := by
  simp only [filter_week_day, return_user_id_list, return_before_post,
    List.filter_filter]

/-- The daily filter output is a sublist (order-preserving subsequence) of
its input. -/
lemma filter_everyday_sublist (now : Int) (bot_id : String)
    (l : List MattermostPostData) :
    (filter_everyday now bot_id l).Sublist l := by
  rw [filter_everyday_eq_filter]
  exact List.filter_sublist l

/-- The weekly filter output is a sublist of its input. -/
lemma filter_week_day_sublist (now : Int) (bot_id : String)
    (l : List MattermostPostData) :
    (filter_week_day now bot_id l).Sublist l := by
  rw [filter_week_day_eq_filter]
  exact List.filter_sublist l

/-! ### Claims -/

/-- Claim C1: every post of the Daily output `return_everyday_posts` was
created strictly before `startOfDay now - 1 day`, and every post of the
Weekly output `return_week_day_posts` strictly before
`startOfDay now - 6 days`; no post at or after the cutoff appears. -/
theorem stale_filter_recency (tz : ZoneInfo) (resp : ChannelResponse)
    (now : Int) (channel_id bot_id : String) (p : MattermostPostData) :
    (p ∈ return_everyday_posts tz resp now channel_id bot_id →
      p.created_at < startOfDay now - 1 * msPerDay) ∧
    (p ∈ return_week_day_posts tz resp now channel_id bot_id →
      p.created_at < startOfDay now - 6 * msPerDay) := by
  constructor
  · intro h
    have hm := (mem_filter_everyday now bot_id _ p).1 h
    have := hm.2.2.1
    rwa [return_shift_datetime_neg_one] at this
  · intro h
    have hm := (mem_filter_week_day now bot_id _ p).1 h
    have := hm.2.2.1
    rwa [return_shift_datetime_neg_six] at this

/-- Witness for C1 at a concrete input. -/
theorem stale_filter_recency_witness :
    postA ∈ return_everyday_posts tz0 resp0 now0 "town" "bot" ∧
    postA.created_at < startOfDay now0 - 1 * msPerDay :=
  ⟨by decide,
   (stale_filter_recency tz0 resp0 now0 "town" "bot" postA).1 (by decide)⟩

/-- Claim C2: every post of the Weekly output contains the substring
`"this week"` in its body, and no post of the Daily output does. -/
theorem stale_filter_class_tag (tz : ZoneInfo) (resp : ChannelResponse)
    (now : Int) (channel_id bot_id : String) (p : MattermostPostData) :
    (p ∈ return_week_day_posts tz resp now channel_id bot_id →
      strContainsSub p.message "this week" = true) ∧
    (p ∈ return_everyday_posts tz resp now channel_id bot_id →
      strContainsSub p.message "this week" = false) := by
  constructor
  · intro h
    exact ((mem_filter_week_day now bot_id _ p).1 h).2.2.2
  · intro h
    exact ((mem_filter_everyday now bot_id _ p).1 h).2.2.2

/-- Witness for C2 at a concrete input. -/
theorem stale_filter_class_tag_witness :
    postB ∈ return_week_day_posts tz0 resp0 now0 "town" "bot" ∧
    strContainsSub postB.message "this week" = true :=
  ⟨by decide,
   (stale_filter_class_tag tz0 resp0 now0 "town" "bot" postB).1 (by decide)⟩

/-- Claim C3: every post of either filter output was authored by the bot:
its `user_id` equals `bot_id`. -/
theorem stale_filter_identity (tz : ZoneInfo) (resp : ChannelResponse)
    (now : Int) (channel_id bot_id : String) (p : MattermostPostData) :
    (p ∈ return_everyday_posts tz resp now channel_id bot_id →
      p.user_id = bot_id) ∧
    (p ∈ return_week_day_posts tz resp now channel_id bot_id →
      p.user_id = bot_id) := by
  constructor
  · intro h
    exact ((mem_filter_everyday now bot_id _ p).1 h).2.1
  · intro h
    exact ((mem_filter_week_day now bot_id _ p).1 h).2.1

/-- Witness for C3 at a concrete input. -/
theorem stale_filter_identity_witness :
    postA ∈ return_everyday_posts tz0 resp0 now0 "town" "bot" ∧
    postA.user_id = "bot" :=
  ⟨by decide,
   (stale_filter_identity tz0 resp0 now0 "town" "bot" postA).1 (by decide)⟩

/-- Claim C4: the window of `get_next_week_events` starts at the unique
Monday 00:00 strictly after `now` (instants divisible by `msPerWeek` are
exactly the Monday midnights of the embedding), advances a full week when
`now` is itself a Monday 00:00, and ends exactly 7 days after its start. -/
theorem next_week_window (now : Int) :
    next_monday now % msPerWeek = 0 ∧
    now < next_monday now ∧
    (∀ m : Int, m % msPerWeek = 0 → now < m → next_monday now ≤ m) ∧
    (now % msPerWeek = 0 → next_monday now = now + msPerWeek) ∧
    after_next_monday now = next_monday now + 7 * msPerDay := by
  refine ⟨?_, ?_, ?_, ?_, rfl⟩
  · unfold next_monday startOfDay weekday msPerDay msPerWeek
    omega
  · unfold next_monday startOfDay weekday msPerDay
    omega
  · intro m hm hlt
    unfold next_monday startOfDay weekday msPerDay
    unfold msPerWeek at hm
    omega
  · intro h
    unfold next_monday startOfDay weekday msPerDay
    unfold msPerWeek at h ⊢
    omega

/-- Witness for C4 at concrete inputs: from Thursday of week 0 the window
start is at most (hence, with the other conjuncts, equal to) the Monday of
week 1, and from Monday 00:00 the window advances a full week. -/
theorem next_week_window_witness :
    ((604800000 : Int) % msPerWeek = 0 ∧ (259200000 : Int) < 604800000 ∧
      next_monday 259200000 ≤ 604800000) ∧
    ((0 : Int) % msPerWeek = 0 ∧ next_monday 0 = 0 + msPerWeek) :=
  ⟨⟨by decide, by decide,
    (next_week_window 259200000).2.2.1 604800000 (by decide) (by decide)⟩,
   ⟨by decide, (next_week_window 0).2.2.2.1 (by decide)⟩⟩

/-- Claim C5 (the code contradicts it): `create_attachments` never succeeds
on a nonempty event list — the access `event.html_link` fails, because the
`GoogleCalendarData` record has no link field, instead of leaving the link
empty. -/
theorem create_attachments_missing_link (event : GoogleCalendarData)
    (rest : List GoogleCalendarData) :
    create_attachments (event :: rest) =
      Except.error "AttributeError: html_link" := rfl

/-- Claim C6 (counterexample to the claim as stated): on a concrete error
response the post listing yields the empty list and both deletion pipelines
proceed with it — the run continues as if the channel were empty instead of
failing. -/
theorem channel_error_swallowed_counterexample :
    get_cannel_posts tz0 (ChannelResponse.error 404) "town" = [] ∧
    return_everyday_posts tz0 (ChannelResponse.error 404) now0 "town" "bot" = [] ∧
    return_week_day_posts tz0 (ChannelResponse.error 404) now0 "town" "bot" = [] :=
  ⟨rfl, rfl, rfl⟩

/-- Claim C6 as amended: for every error response, `get_cannel_posts`
returns the empty list and both pipelines return empty candidate lists; the
error is swallowed, not fatal. -/
theorem channel_error_returns_empty (tz : ZoneInfo) (code : Int)
    (now : Int) (channel_id bot_id : String) :
    get_cannel_posts tz (ChannelResponse.error code) channel_id = [] ∧
    return_everyday_posts tz (ChannelResponse.error code) now channel_id bot_id = [] ∧
    return_week_day_posts tz (ChannelResponse.error code) now channel_id bot_id = [] :=
  ⟨rfl, rfl, rfl⟩

/-- Claim C7: the label is `"{MM}/{DD} all_day"` (two-digit zero-padded, no
time component) for an all-day event, and
`"{MM}/{DD} from {HH}:{MM} to {HH}:{MM}"` for a timed event. -/
theorem create_label_spec (event : GoogleCalendarData) :
    (event.schedule_type = "all_day" →
      create_label event =
        pad2 event.start.month ++ "/" ++ pad2 event.start.day ++ " all_day") ∧
    (event.schedule_type ≠ "all_day" →
      create_label event =
        pad2 event.start.month ++ "/" ++ pad2 event.start.day ++ " from "
          ++ pad2 event.start.hour ++ ":" ++ pad2 event.start.minute
          ++ " to " ++ pad2 event.«end».hour ++ ":" ++ pad2 event.«end».minute) := by
  constructor
  · intro h
    have hb : (event.schedule_type == "all_day") = true := by simp [h]
    apply String.ext
    simp [create_label, hb, strftime, strftimeGo, String.singleton]
  · intro h
    have hb : (event.schedule_type == "all_day") = false := by simp [h]
    apply String.ext
    simp [create_label, hb, strftime, strftimeGo, String.singleton]

/-- Witness for C7 at a concrete all-day event. -/
theorem create_label_spec_witness :
    eventA.schedule_type = "all_day" ∧
    create_label eventA =
      pad2 eventA.start.month ++ "/" ++ pad2 eventA.start.day ++ " all_day" :=
  ⟨rfl, (create_label_spec eventA).1 rfl⟩

/-- Claim C8: the list that `get_cannel_posts` feeds to the filters is
sorted ascending by `created_at`; each filter step returns a sublist of its
input (preserving relative order); hence both pipeline outputs are sorted
ascending by `created_at`. -/
theorem stale_filter_sorted (tz : ZoneInfo) (resp : ChannelResponse)
    (now : Int) (channel_id bot_id : String) :
    List.Pairwise (fun p q : MattermostPostData => p.created_at ≤ q.created_at)
      (get_cannel_posts tz resp channel_id) ∧
    (∀ (l : List MattermostPostData) (u : String),
      (return_user_id_list l u).Sublist l) ∧
    (∀ (l : List MattermostPostData) (d : Int),
      (return_before_post l d).Sublist l) ∧
    List.Pairwise (fun p q : MattermostPostData => p.created_at ≤ q.created_at)
      (return_everyday_posts tz resp now channel_id bot_id) ∧
    List.Pairwise (fun p q : MattermostPostData => p.created_at ≤ q.created_at)
      (return_week_day_posts tz resp now channel_id bot_id) := by
  refine ⟨pairwise_get_cannel_posts tz resp channel_id,
    fun l u => List.filter_sublist l,
    fun l d => List.filter_sublist l,
    ?_, ?_⟩
  · exact List.Pairwise.sublist (filter_everyday_sublist now bot_id _)
      (pairwise_get_cannel_posts tz resp channel_id)
  · exact List.Pairwise.sublist (filter_week_day_sublist now bot_id _)
      (pairwise_get_cannel_posts tz resp channel_id)

/-- Claim C9: each class of the Stale-Post Filter is a pure function of the
post list, `now` and `bot_id`; in particular it is idempotent — running the
filter again on its own output (same `now`, same `bot_id`) returns the
output unchanged. -/
theorem stale_filter_idempotent (now : Int) (bot_id : String)
    (l : List MattermostPostData) :
    filter_everyday now bot_id (filter_everyday now bot_id l) =
      filter_everyday now bot_id l ∧
    filter_week_day now bot_id (filter_week_day now bot_id l) =
      filter_week_day now bot_id l := by
  constructor
  · rw [filter_everyday_eq_filter, filter_everyday_eq_filter,
      List.filter_filter]
    simp only [Bool.and_self]
  · rw [filter_week_day_eq_filter, filter_week_day_eq_filter,
      List.filter_filter]
    simp only [Bool.and_self]

/-- Claim C10: no post is selected for deletion by both the Daily and the
Weekly pipeline — their outputs are disjoint. -/
theorem daily_weekly_disjoint (tz : ZoneInfo) (resp : ChannelResponse)
    (now : Int) (channel_id bot_id : String) (p : MattermostPostData) :
    p ∈ return_everyday_posts tz resp now channel_id bot_id →
      p ∉ return_week_day_posts tz resp now channel_id bot_id := by
  intro hd hw
  have h1 := ((mem_filter_everyday now bot_id _ p).1 hd).2.2.2
  have h2 := ((mem_filter_week_day now bot_id _ p).1 hw).2.2.2
  rw [h1] at h2
  exact Bool.false_ne_true h2

/-- Witness for C10 at a concrete input. -/
theorem daily_weekly_disjoint_witness :
    postA ∈ return_everyday_posts tz0 resp0 now0 "town" "bot" ∧
    postA ∉ return_week_day_posts tz0 resp0 now0 "town" "bot" :=
  ⟨by decide,
   daily_weekly_disjoint tz0 resp0 now0 "town" "bot" postA (by decide)⟩
